import Mathlib

/-!
Verification of the magic-buddy conversation app.

Shallow embedding of the three pieces of the repository:
* the speech I/O adapter (`src/hooks/useSpeech.ts`): the `speak` safety-timeout
  machinery and the recognition event handlers,
* the conversation controller (`src/App.tsx`): `startConversation` and
  `handleUserResponse`,
* the scripted model client (`src/lib/openai.ts`): `mockAnalyzeImageAndStart`
  and `mockContinueConversation`.
JavaScript strings are modelled as Lean `String`; thrown exceptions as
`Except String` / `Option`; the event-driven callbacks as step functions over
explicit state records, folded over event traces.
-/

namespace MagicBuddy

/-- JS `String.prototype.toLowerCase()` (ASCII case folding). -/
def lowerStr (s : String) : String :=
  String.mk (s.data.map Char.toLower)

/-- JS `String.prototype.includes(pat)`: `pat` occurs as a contiguous
substring of `s`. -/
def strContains (s pat : String) : Bool :=
  (List.range (s.data.length + 1)).any fun i => pat.data.isPrefixOf (s.data.drop i)

/-- JS `text.split(' ')` on the character list: split at every single space,
keeping empty segments (so the result is never empty). -/
def splitSpaceAux : List Char → List Char → List (List Char)
  | [], acc => [acc.reverse]
  | c :: cs, acc =>
      if c = ' ' then acc.reverse :: splitSpaceAux cs []
      else splitSpaceAux cs (c :: acc)

/-- `text.split(' ').length` from `useSpeech.ts` line 101. -/
def wordCount (text : String) : Nat :=
  (splitSpaceAux text.data []).length

/-- `useSpeech.ts` line 101:
`Math.max(2000, text.split(' ').length * 500)`. -/
def contentDuration (text : String) : Nat :=
  max 2000 (wordCount text * 500)

/-- `useSpeech.ts` line 109: the safety timer is armed with delay
`contentDuration + 2000` milliseconds. -/
def safetyTimeoutMs (text : String) : Nat :=
  contentDuration text + 2000

/-! ## The `speak` completion machinery (`useSpeech.ts` lines 84-127)

`speak text onEnd` (for nonempty `text`) registers three callbacks that can
invoke `onEnd`: `utterance.onend`, `utterance.onerror`, and the safety timer.
We model one call as a fold of the handlers over a trace of delivered events.

State components: how many times `onEnd` has been invoked; whether the safety
timer is still armed (set, neither cleared nor fired); whether the engine has
delivered a terminal event (`onend`/`onerror`); whether the code has called
`speechSynthesis.cancel()` from the timer.  The engine-side flag
`speechSynthesis.speaking` is `true` exactly while the utterance is neither
terminated nor cancelled.

Environment model (validity of a trace): the engine delivers at most one
terminal event and none after a cancel; a timer event is delivered only while
the timer is armed.  A run is complete when the timer has been resolved
(fired or cleared): a set timer always eventually fires unless cleared. -/

structure SpeakState where
  onDoneCount : Nat
  timerActive : Bool
  terminated : Bool
  canceled : Bool
deriving DecidableEq

inductive SpeakEvent
  | engineEnd
  | engineError
  | timerFire
deriving DecidableEq

/-- `window.speechSynthesis.speaking`, checked by the safety timer
(`useSpeech.ts` line 103). -/
def speaking (s : SpeakState) : Bool :=
  !s.terminated && !s.canceled

/-- State right after `speak` returns (nonempty text): no `onEnd` call yet,
safety timer armed. -/
def speakInit : SpeakState :=
  ⟨0, true, false, false⟩

/-- The three handlers of `speak`:
* `onend` (lines 112-116): `clearTimeout`; invoke `onEnd`;
* `onerror` (lines 117-124): `clearTimeout`; invoke `onEnd`;
* the safety timer (lines 102-109): if `speechSynthesis.speaking`, then
  `cancel()` and invoke `onEnd`, else do nothing; either way the timer is
  spent. -/
def speakStep (s : SpeakState) : SpeakEvent → SpeakState
  | .engineEnd =>
      { s with timerActive := false, terminated := true,
               onDoneCount := s.onDoneCount + 1 }
  | .engineError =>
      { s with timerActive := false, terminated := true,
               onDoneCount := s.onDoneCount + 1 }
  | .timerFire =>
      if speaking s then
        { s with timerActive := false, canceled := true,
                 onDoneCount := s.onDoneCount + 1 }
      else
        { s with timerActive := false }

/-- Environment restrictions on event traces: at most one engine terminal
event, none after a cancel, and the timer fires only while armed. -/
def validFrom : SpeakState → List SpeakEvent → Bool
  | _, [] => true
  | s, e :: rest =>
      (match e with
       | .engineEnd => !s.terminated && !s.canceled
       | .engineError => !s.terminated && !s.canceled
       | .timerFire => s.timerActive) && validFrom (speakStep s e) rest

/-- The adapter state after a trace of events for one `speak` call. -/
def speakFinal (t : List SpeakEvent) : SpeakState :=
  t.foldl speakStep speakInit

/-- Number of `onDone` invocations of one whole `speak text onDone` call:
`useSpeech.ts` line 85 returns immediately on falsy (empty) text, so no
callback is ever registered and no event can occur. -/
def speakOnDoneCount (text : String) (t : List SpeakEvent) : Nat :=
  if text = "" then 0 else (speakFinal t).onDoneCount

/-- Invariant of the `speak` machinery: before any resolving event the timer
is armed and `onDone` has not been called; after the first resolving event
(engine terminal or timer-with-cancel) the timer is spent and `onDone` has
been called exactly once. -/
def SpeakInv (s : SpeakState) : Prop :=
  (s.timerActive = true ∧ s.terminated = false ∧ s.canceled = false ∧
    s.onDoneCount = 0) ∨
  (s.timerActive = false ∧ s.onDoneCount = 1 ∧
    (s.terminated = true ∨ s.canceled = true))

/-! ## Speech recognition adapter (`useSpeech.ts` lines 21-82, 129-148)

State: the React flag `isListening`, the intent flag `shouldListenRef`, the
`transcript` string, and the engine-side flag `engineRunning` (the recognizer
is active, or a (re)start has just been issued on it). -/

structure RecState where
  isListening : Bool
  shouldListen : Bool
  transcript : String
  engineRunning : Bool
deriving DecidableEq

inductive RecEvent
  | apiStart
  | apiStop
  | evStarted
  | evResult (t : String)
  | evEnd
  | evError (e : String)
deriving DecidableEq

/-- Adapter state before any call: nothing listening, no intent, empty
transcript. -/
def recInit : RecState :=
  ⟨false, false, "", false⟩

/-- One step of the adapter, from `useSpeech.ts`:
* `apiStart` = `startListening()` (lines 129-143): `setTranscript('')`,
  `shouldListenRef.current = true`, `recognition.start()`;
* `apiStop` = `stopListening()` (lines 145-148): clear the intent flag and
  stop the recognizer;
* `evStarted` = `recognition.onstart` (lines 34-37): `setIsListening(true)`;
* `evResult t` = `recognition.onresult` (lines 39-46): read the latest
  result's transcript `t` and `setTranscript(t)`;
* `evEnd` = `recognition.onend` (lines 52-68): `setIsListening(false)`, then
  restart the recognizer exactly when the intent flag is still set;
* `evError e` = `recognition.onerror` (lines 70-76): clear the intent flag
  for the two permission-denied error codes, and `setIsListening(false)`. -/
def recStep (s : RecState) : RecEvent → RecState
  | .apiStart => { s with transcript := "", shouldListen := true,
                          engineRunning := true }
  | .apiStop => { s with shouldListen := false, engineRunning := false }
  | .evStarted => { s with isListening := true }
  | .evResult t => { s with transcript := t }
  | .evEnd => { s with isListening := false, engineRunning := s.shouldListen }
  | .evError e =>
      { s with
        shouldListen :=
          if e = "not-allowed" ∨ e = "service-not-allowed" then false
          else s.shouldListen,
        isListening := false }

/-- Run the adapter from its initial state over a trace of calls/events. -/
def recRun (t : List RecEvent) : RecState :=
  t.foldl recStep recInit

end MagicBuddy

namespace MagicBuddy

/-! ## Conversation model client (`src/lib/openai.ts`) -/

inductive Role
  | system
  | user
  | assistant
deriving DecidableEq

/-- Message content: plain text, or the composite text-plus-image payload of
the first live user turn. -/
inductive Content
  | str (s : String)
  | parts (text : String) (imageUrl : String)
deriving DecidableEq

structure ChatMessage where
  role : Role
  content : Content
deriving DecidableEq

structure ToolCall where
  color : String
deriving DecidableEq

/-- Result of `analyzeImageAndStart` / `mockAnalyzeImageAndStart`. -/
structure StartResult where
  text : String
  toolCall : Option ToolCall
  initialUserMessage : ChatMessage
deriving DecidableEq

/-- Result of `continueConversation` / `mockContinueConversation`. -/
structure ContResult where
  text : String
  toolCall : Option ToolCall
deriving DecidableEq

/-- `mockAnalyzeImageAndStart` (`openai.ts` lines 139-153): a fixed greeting,
the light-green color command, and the fixed initial user turn. -/
def mockAnalyzeImageAndStart : StartResult :=
  ⟨"Wow! That looks like a super happy dinosaur! Is he going on an adventure?",
   some ⟨"#e3fded"⟩,
   ⟨Role.user, Content.str "Image Analysis Request"⟩⟩

/-- The keywords of the `mockContinueConversation` table, in the order the
if-chain checks them. -/
def mockKeywords : List String :=
  ["red", "fire", "hot", "blue", "water", "swim", "green", "grass", "leaf",
   "fly", "wings", "eat", "food", "hungry", "roar", "loud", "friend", "play",
   "sleep", "tired", "bed", "yes", "yeah", "no", "nope"]

/-- `mockContinueConversation` (`openai.ts` lines 155-199).
`history[history.length - 1]` on an empty array is `undefined`, and reading
`.content` of it throws a `TypeError`: modelled as `none`.  Otherwise the
lower-cased text of the last message (or `""` for non-string content) is
matched by the if-chain, first match wins. -/
def mockContinueConversation (history : List ChatMessage) :
    Option ContResult :=
  match history.getLast? with
  | none => none
  | some lastUserMsg =>
      let userText := match lastUserMsg.content with
        | .str s => lowerStr s
        | .parts _ _ => ""
      some (
        if strContains userText "red" || strContains userText "fire" ||
            strContains userText "hot" then
          ⟨"Oh wow! Red like a volcano! Is it hot?", some ⟨"#ffe5e5"⟩⟩
        else if strContains userText "blue" || strContains userText "water" ||
            strContains userText "swim" then
          ⟨"Splash! Blue like the ocean. Can he swim?", some ⟨"#e0f7fa"⟩⟩
        else if strContains userText "green" || strContains userText "grass" ||
            strContains userText "leaf" then
          ⟨"Yum! Green like fresh leaves. Is he hungry?", some ⟨"#e3fded"⟩⟩
        else if strContains userText "fly" || strContains userText "wings" then
          ⟨"Zoom! Flying high in the sky! Where is he going?",
           some ⟨"#e1f5fe"⟩⟩
        else if strContains userText "eat" || strContains userText "food" ||
            strContains userText "hungry" then
          ⟨"Crunch crunch! He loves eating big leaves and fruits. What is your favorite food?",
           some ⟨"#fff3e0"⟩⟩
        else if strContains userText "roar" || strContains userText "loud" then
          ⟨"ROAAAR! He has a big loud voice! Can you roar like a dinosaur?",
           some ⟨"#ffecb3"⟩⟩
        else if strContains userText "friend" ||
            strContains userText "play" then
          ⟨"Friends are the best! Does he play tag or hide-and-seek?",
           some ⟨"#f3e5f5"⟩⟩
        else if strContains userText "sleep" || strContains userText "tired" ||
            strContains userText "bed" then
          ⟨"Shhh... tight sleep. Maybe he dreams of flying?", some ⟨"#cfd8dc"⟩⟩
        else if strContains userText "yes" || strContains userText "yeah" then
          ⟨"Yay! I knew it! Tell me more!", none⟩
        else if strContains userText "no" || strContains userText "nope" then
          ⟨"Oh really? What mistakes did I make? Tell me the secret!", none⟩
        else
          ⟨"That sounds like so much fun! What else can he do?", none⟩)

/-! ## Conversation controller (`src/App.tsx`) -/

inductive AppPhase
  | IDLE
  | ANALYZING
  | SPEAKING
  | LISTENING
  | THINKING
  | ERROR
deriving DecidableEq

structure AppState where
  appState : AppPhase
  history : List ChatMessage
  lastAIResponse : String
  backgroundColor : String
  isDemoMode : Bool
  hasKey : Bool
deriving DecidableEq

/-- `startConversation` (`App.tsx` lines 59-96), with the awaited result of
the try-block (the model-client call, or anything thrown inside it) passed in
as `outcome`.  On success: store the reply, *set* the history to the two
turns `[initialUserMessage, assistant-reply]`, apply any color command, go to
`SPEAKING`.  On a thrown error: store `error.message || "Unknown error
occurred"` and go to `ERROR`. -/
def startConversation (s : AppState) (forceDemo : Bool)
    (outcome : Except String StartResult) : AppState :=
  if !s.hasKey && !forceDemo then s
  else
    let s1 := { s with isDemoMode := s.isDemoMode || forceDemo,
                       appState := AppPhase.ANALYZING }
    match outcome with
    | .ok r =>
        { s1 with
          lastAIResponse := r.text,
          history := [r.initialUserMessage,
                      ⟨Role.assistant, Content.str r.text⟩],
          backgroundColor := match r.toolCall with
            | some tc => tc.color
            | none => s1.backgroundColor,
          appState := AppPhase.SPEAKING }
    | .error msg =>
        { s1 with
          lastAIResponse := if msg = "" then "Unknown error occurred" else msg,
          appState := AppPhase.ERROR }

/-- `handleUserResponse` (`App.tsx` lines 122-150), with the awaited result
of the model-client call passed in as `outcome`.  Appends the user turn, and
on success appends the assistant turn, applies any color command and goes to
`SPEAKING`; on a thrown error stores `error.message || "Unknown error
occurred"` and goes to `ERROR`. -/
def handleUserResponse (s : AppState) (userText : String)
    (outcome : Except String ContResult) : AppState :=
  let newHistory := s.history ++ [⟨Role.user, Content.str userText⟩]
  let s1 := { s with appState := AppPhase.THINKING, history := newHistory }
  match outcome with
  | .ok r =>
      { s1 with
        lastAIResponse := r.text,
        history := newHistory ++ [⟨Role.assistant, Content.str r.text⟩],
        backgroundColor := match r.toolCall with
          | some tc => tc.color
          | none => s1.backgroundColor,
        appState := AppPhase.SPEAKING }
  | .error msg =>
      { s1 with
        lastAIResponse := if msg = "" then "Unknown error occurred" else msg,
        appState := AppPhase.ERROR }

end MagicBuddy

namespace MagicBuddy

/-! ## Helper lemmas -/

theorem speakInv_preserved (t : List SpeakEvent) :
    ∀ s : SpeakState, SpeakInv s → validFrom s t = true →
      SpeakInv (t.foldl speakStep s) := by
  induction t with
  | nil => intro s hs _; simpa using hs
  | cons e rest ih =>
      intro s hs hv
      simp only [validFrom, Bool.and_eq_true] at hv
      obtain ⟨hg, hv'⟩ := hv
      refine ih (speakStep s e) ?_ hv'
      rcases hs with ⟨h1, h2, h3, h4⟩ | ⟨h1, h2, h3⟩
      · cases e with
        | engineEnd =>
            right; simp [speakStep, h4]
        | engineError =>
            right; simp [speakStep, h4]
        | timerFire =>
            right; simp [speakStep, speaking, h2, h3, h4]
      · cases e with
        | engineEnd =>
            simp only [Bool.and_eq_true, Bool.not_eq_true'] at hg
            rcases h3 with h3 | h3
            · exact absurd hg.1 (by simp [h3])
            · exact absurd hg.2 (by simp [h3])
        | engineError =>
            simp only [Bool.and_eq_true, Bool.not_eq_true'] at hg
            rcases h3 with h3 | h3
            · exact absurd hg.1 (by simp [h3])
            · exact absurd hg.2 (by simp [h3])
        | timerFire =>
            exact absurd hg (by simp [h1])

theorem mock_continue_concat (h : List ChatMessage) (m : ChatMessage) :
    mockContinueConversation (h ++ [m]) = mockContinueConversation [m] := by
  simp only [mockContinueConversation, List.getLast?_append_cons]

/-! ## Claim C1 -/

/-- Claim C1 (amended): for every call `speak text onDone` with nonempty
`text`, the completion callback is invoked exactly once over any valid and
complete event trace — whether the synthesis engine finishes normally,
reports an error, or never signals completion (the safety timer then forces
it).  (With empty `text`, `speak` returns immediately and never invokes the
callback, so the original universal claim fails there.) -/
theorem speak_onDone_exactly_once_nonempty (text : String)
    (t : List SpeakEvent) (hne : text ≠ "")
    (hv : validFrom speakInit t = true)
    (hc : (speakFinal t).timerActive = false) :
    speakOnDoneCount text t = 1 := by
  have hinv := speakInv_preserved t speakInit
    (Or.inl (by simp [speakInit])) hv
  simp only [speakFinal] at hc
  rcases hinv with ⟨h1, _, _, _⟩ | ⟨_, h2, _⟩
  · rw [h1] at hc; cases hc
  · simp only [speakOnDoneCount, if_neg hne, speakFinal]
    exact h2

/-- Claim C1 witness: a trace in which the engine ends normally yields one
invocation of the callback. -/
theorem speak_onDone_exactly_once_nonempty_witness :
    speakOnDoneCount "hello" [SpeakEvent.engineEnd] = 1 :=
  speak_onDone_exactly_once_nonempty "hello" [SpeakEvent.engineEnd]
    (by decide) (by decide) (by decide)

/-- Claim C1 counterexample: `speak` called with the empty string returns
before registering any callback or timer (`useSpeech.ts` line 85), so the
completion callback is invoked zero times, not exactly once. -/
theorem speak_empty_text_never_invokes_onDone :
    speakOnDoneCount "" [] = 0 ∧ ¬ speakOnDoneCount "" [] = 1 := by
  decide

/-! ## Claim C2 -/

/-- Claim C2: the safety timeout of `speak` equals a 2-second floor on the
500ms-per-word estimate, plus a 2-second buffer; in particular a 10-word
message is forced to complete no later than 2s + 5s + 2s = 9 seconds after
`speak` is called (the timer is actually armed at 7 seconds). -/
theorem speak_safety_timeout_formula (text : String) :
    safetyTimeoutMs text = max 2000 (wordCount text * 500) + 2000 ∧
    (wordCount text = 10 → safetyTimeoutMs text ≤ 9000) := by
  refine ⟨rfl, fun h => ?_⟩
  simp only [safetyTimeoutMs, contentDuration]
  rw [h]
  decide

/-- Claim C2 witness: a concrete 10-word message. -/
theorem speak_safety_timeout_formula_witness :
    wordCount "a b c d e f g h i j" = 10 ∧
    safetyTimeoutMs "a b c d e f g h i j" ≤ 9000 :=
  ⟨by decide, (speak_safety_timeout_formula "a b c d e f g h i j").2 (by decide)⟩

/-! ## Claim C3 -/

/-- Claim C3 (amended): in live mode, whenever the model client call throws,
the Controller ends in the `ERROR` state in both `startConversation` and
`handleUserResponse`; the thrown message is stored as the displayed response
text when it is nonempty, while an empty thrown message is replaced by the
fallback text `"Unknown error occurred"`. -/
theorem model_error_reaches_error_state (s : AppState) (msg u : String)
    (hk : s.hasKey = true) :
    ((startConversation s false (Except.error msg)).appState =
        AppPhase.ERROR ∧
      (handleUserResponse s u (Except.error msg)).appState =
        AppPhase.ERROR) ∧
    (msg ≠ "" →
      (startConversation s false (Except.error msg)).lastAIResponse = msg ∧
      (handleUserResponse s u (Except.error msg)).lastAIResponse = msg) ∧
    (msg = "" →
      (startConversation s false (Except.error msg)).lastAIResponse =
        "Unknown error occurred" ∧
      (handleUserResponse s u (Except.error msg)).lastAIResponse =
        "Unknown error occurred") := by
  refine ⟨⟨?_, ?_⟩, fun hmsg => ⟨?_, ?_⟩, fun hmsg => ⟨?_, ?_⟩⟩
  · simp [startConversation, hk]
  · simp [handleUserResponse]
  · simp [startConversation, hk, hmsg]
  · simp [handleUserResponse, hmsg]
  · simp [startConversation, hk, hmsg]
  · simp [handleUserResponse, hmsg]

/-- Claim C3 witness: a thrown error with message `"boom"` in live mode. -/
theorem model_error_reaches_error_state_witness :
    (startConversation ⟨AppPhase.IDLE, [], "", "#f0f9ff", false, true⟩ false
        (Except.error "boom")).appState = AppPhase.ERROR ∧
    (startConversation ⟨AppPhase.IDLE, [], "", "#f0f9ff", false, true⟩ false
        (Except.error "boom")).lastAIResponse = "boom" :=
  ⟨(model_error_reaches_error_state
      ⟨AppPhase.IDLE, [], "", "#f0f9ff", false, true⟩ "boom" "hi" rfl).1.1,
   ((model_error_reaches_error_state
      ⟨AppPhase.IDLE, [], "", "#f0f9ff", false, true⟩ "boom" "hi" rfl).2.1
      (by decide)).1⟩

/-- Claim C3 counterexample: a thrown exception whose message is the empty
string is not stored as the displayed text; the Controller displays
`"Unknown error occurred"` instead (`App.tsx` lines 93 and 147). -/
theorem empty_error_message_not_stored :
    (startConversation ⟨AppPhase.IDLE, [], "", "#f0f9ff", false, true⟩ false
        (Except.error "")).lastAIResponse = "Unknown error occurred" ∧
    ¬ (startConversation ⟨AppPhase.IDLE, [], "", "#f0f9ff", false, true⟩
        false (Except.error "")).lastAIResponse = "" := by
  decide

/-! ## Claim C4 -/

/-- Claim C4: the scripted `mockContinueConversation` is a deterministic
first-match over the fixed keyword table in its fixed priority order: a
latest user turn containing both `"red"` and `"blue"` resolves to the red
reply (red is checked first); when no keyword of the table occurs, it
defaults to the generic encouraging reply with no color command; and the
latest user turn `"I like blue"` yields the color `#e0f7fa` and a reply
containing `"ocean"`. -/
theorem mock_continue_first_match (h : List ChatMessage) (s : String) :
    (strContains (lowerStr s) "red" = true →
      strContains (lowerStr s) "blue" = true →
      mockContinueConversation (h ++ [⟨Role.user, Content.str s⟩]) =
        some ⟨"Oh wow! Red like a volcano! Is it hot?", some ⟨"#ffe5e5"⟩⟩) ∧
    ((∀ k ∈ mockKeywords, strContains (lowerStr s) k = false) →
      mockContinueConversation (h ++ [⟨Role.user, Content.str s⟩]) =
        some ⟨"That sounds like so much fun! What else can he do?", none⟩) ∧
    (s = "I like blue" →
      mockContinueConversation (h ++ [⟨Role.user, Content.str s⟩]) =
        some ⟨"Splash! Blue like the ocean. Can he swim?",
              some ⟨"#e0f7fa"⟩⟩ ∧
      strContains "Splash! Blue like the ocean. Can he swim?" "ocean" =
        true) := by
  rw [mock_continue_concat]
  refine ⟨fun hred _ => ?_, fun hk => ?_, fun hs => ?_⟩
  · simp [mockContinueConversation, hred]
  · simp only [mockKeywords, List.forall_mem_cons] at hk
    obtain ⟨k1, k2, k3, k4, k5, k6, k7, k8, k9, k10, k11, k12, k13, k14,
      k15, k16, k17, k18, k19, k20, k21, k22, k23, k24, k25, -⟩ := hk
    simp [mockContinueConversation, k1, k2, k3, k4, k5, k6, k7, k8, k9, k10,
      k11, k12, k13, k14, k15, k16, k17, k18, k19, k20, k21, k22, k23, k24,
      k25]
  · subst hs; decide

/-- Claim C4 witness: the scripted reply for `"I like blue"`. -/
theorem mock_continue_first_match_witness :
    mockContinueConversation [⟨Role.user, Content.str "I like blue"⟩] =
      some ⟨"Splash! Blue like the ocean. Can he swim?", some ⟨"#e0f7fa"⟩⟩ :=
  ((mock_continue_first_match [] "I like blue").2.2 rfl).1

/-! ## Claim C5 -/

/-- Claim C5 (amended): the scripted fallback never fails on the inputs the
app gives it: for every *nonempty* dialogue history,
`mockContinueConversation` returns a reply, and `mockAnalyzeImageAndStart`
always returns its fixed greeting, color command and initial user turn.  (On
the empty history `mockContinueConversation` faults: it reads `.content` of
`history[-1]`, which is undefined.) -/
theorem mock_fallback_nonempty_never_fails (h : List ChatMessage)
    (hne : h ≠ []) :
    (mockContinueConversation h).isSome = true ∧
    mockAnalyzeImageAndStart =
      ⟨"Wow! That looks like a super happy dinosaur! Is he going on an adventure?",
       some ⟨"#e3fded"⟩,
       ⟨Role.user, Content.str "Image Analysis Request"⟩⟩ := by
  constructor
  · obtain ⟨m, hm⟩ : ∃ m, h.getLast? = some m := by
      cases hq : h.getLast? with
      | none => exact absurd (List.getLast?_eq_none_iff.mp hq) hne
      | some m => exact ⟨m, rfl⟩
    simp [mockContinueConversation, hm]
  · rfl

/-- Claim C5 witness: a one-turn history gets a reply. -/
theorem mock_fallback_nonempty_never_fails_witness :
    (mockContinueConversation [⟨Role.user, Content.str "hi"⟩]).isSome =
      true :=
  (mock_fallback_nonempty_never_fails [⟨Role.user, Content.str "hi"⟩]
    (by simp)).1

/-- Claim C5 counterexample: on the empty dialogue history the scripted
fallback raises a `TypeError` (`openai.ts` lines 159-160 read `.content` of
an undefined last element) instead of returning a reply. -/
theorem mock_continue_empty_history_fails :
    mockContinueConversation [] = none ∧
    (mockContinueConversation []).isSome = false := by
  decide

/-! ## Claim C6 -/

/-- Claim C6 (amended): when the Analyzing state succeeds, the Controller
*sets* the history to exactly the two turns user-image-turn followed by
assistant-reply-turn — which equals appending them when the prior history is
empty, as in the normal flow, but *replaces* any nonempty prior history —
and the Thinking path appends its two turns, preserving every earlier turn
unchanged. -/
theorem analyzing_success_two_turns (s : AppState) (r : StartResult)
    (u : String) (o : ContResult) (hk : s.hasKey = true) :
    (startConversation s false (Except.ok r)).history =
      [r.initialUserMessage, ⟨Role.assistant, Content.str r.text⟩] ∧
    (s.history = [] →
      (startConversation s false (Except.ok r)).history =
        s.history ++
          [r.initialUserMessage, ⟨Role.assistant, Content.str r.text⟩]) ∧
    (handleUserResponse s u (Except.ok o)).history =
      s.history ++ [⟨Role.user, Content.str u⟩,
                    ⟨Role.assistant, Content.str o.text⟩] := by
  refine ⟨?_, fun hh => ?_, ?_⟩
  · simp [startConversation, hk]
  · simp [startConversation, hk, hh]
  · simp [handleUserResponse]

/-- Claim C6 witness: with an empty prior history the success of Analyzing
leaves exactly the two new turns. -/
theorem analyzing_success_two_turns_witness :
    (startConversation ⟨AppPhase.IDLE, [], "", "#f0f9ff", false, true⟩ false
        (Except.ok ⟨"hi there", none,
          ⟨Role.user, Content.str "Image Analysis Request"⟩⟩)).history =
      [⟨Role.user, Content.str "Image Analysis Request"⟩,
       ⟨Role.assistant, Content.str "hi there"⟩] :=
  (analyzing_success_two_turns
    ⟨AppPhase.IDLE, [], "", "#f0f9ff", false, true⟩
    ⟨"hi there", none, ⟨Role.user, Content.str "Image Analysis Request"⟩⟩
    "u" ⟨"t", none⟩ rfl).1

/-- Claim C6 counterexample: when the prior history is nonempty, a
successful analysis does *not* append two turns to it — `App.tsx` line 83
overwrites the history with the fresh two-element array, discarding the
prior turn. -/
theorem start_replaces_nonempty_history :
    ¬ ((startConversation
          ⟨AppPhase.IDLE, [⟨Role.assistant, Content.str "old"⟩], "",
           "#f0f9ff", false, true⟩ false
          (Except.ok ⟨"hi", none, ⟨Role.user, Content.str "img"⟩⟩)).history =
        [⟨Role.assistant, Content.str "old"⟩] ++
          [⟨Role.user, Content.str "img"⟩,
           ⟨Role.assistant, Content.str "hi"⟩]) := by
  decide

/-! ## Claim C7 -/

/-- Claim C7 (amended): if the speech recognizer ends on its own while the
intent flag is still set, the adapter immediately restarts it with the
intent flag preserved, so recognition continues until `stopListening` is
called, and the restarted recognizer reports listening again once it starts;
after `stopListening` an end event triggers no restart.  (The `isListening`
flag, however, is reported false at the end event until the restarted
recognizer's start event, so it does not literally remain true.) -/
theorem auto_restart_on_end (s : RecState)
    (hintent : s.shouldListen = true) :
    (recStep s RecEvent.evEnd).engineRunning = true ∧
    (recStep s RecEvent.evEnd).shouldListen = true ∧
    (recStep s RecEvent.evEnd).isListening = false ∧
    (recStep (recStep s RecEvent.evEnd) RecEvent.evStarted).isListening =
      true ∧
    (recStep (recStep s RecEvent.apiStop) RecEvent.evEnd).engineRunning =
      false := by
  simp [recStep, hintent]

/-- Claim C7 witness: an adapter state with intent set. -/
theorem auto_restart_on_end_witness :
    (recStep ⟨true, true, "", true⟩ RecEvent.evEnd).engineRunning = true ∧
    (recStep ⟨true, true, "", true⟩ RecEvent.evEnd).shouldListen = true ∧
    (recStep ⟨true, true, "", true⟩ RecEvent.evEnd).isListening = false ∧
    (recStep (recStep ⟨true, true, "", true⟩ RecEvent.evEnd)
        RecEvent.evStarted).isListening = true ∧
    (recStep (recStep ⟨true, true, "", true⟩ RecEvent.apiStop)
        RecEvent.evEnd).engineRunning = false :=
  auto_restart_on_end ⟨true, true, "", true⟩ rfl

/-- Claim C7 counterexample: after `startListening` and a spontaneous end of
the recognizer, the intent flag is still set and `stopListening` was never
called, yet `isListening` is reported false (`useSpeech.ts` line 54 runs
before the restart), so `isListening` does not remain true from
`startListening` until `stopListening`. -/
theorem isListening_false_during_restart :
    (recRun [RecEvent.apiStart, RecEvent.evStarted,
        RecEvent.evEnd]).shouldListen = true ∧
    (recRun [RecEvent.apiStart, RecEvent.evStarted,
        RecEvent.evEnd]).isListening = false := by
  decide

/-! ## Claim C8 -/

/-- Claim C8: after a permission-denied class recognition error
(`not-allowed` or `service-not-allowed`) the intent flag is false,
`isListening` is reported false, and a subsequent spontaneous end triggers
no auto-restart; for every other recognition error `isListening` is
reported false but the intent flag is left unchanged. -/
theorem permission_error_clears_intent (s : RecState) (e : String) :
    ((e = "not-allowed" ∨ e = "service-not-allowed") →
      (recStep s (RecEvent.evError e)).shouldListen = false ∧
      (recStep s (RecEvent.evError e)).isListening = false ∧
      (recStep (recStep s (RecEvent.evError e))
          RecEvent.evEnd).engineRunning = false) ∧
    (e ≠ "not-allowed" → e ≠ "service-not-allowed" →
      (recStep s (RecEvent.evError e)).isListening = false ∧
      (recStep s (RecEvent.evError e)).shouldListen = s.shouldListen) := by
  constructor
  · intro he
    rcases he with he | he <;> subst he <;> simp [recStep]
  · intro h1 h2
    simp [recStep, h1, h2]

/-- Claim C8 witness: the `not-allowed` error on a listening state with
intent set. -/
theorem permission_error_clears_intent_witness :
    (recStep ⟨true, true, "", true⟩
        (RecEvent.evError "not-allowed")).shouldListen = false ∧
    (recStep ⟨true, true, "", true⟩
        (RecEvent.evError "not-allowed")).isListening = false ∧
    (recStep (recStep ⟨true, true, "", true⟩
        (RecEvent.evError "not-allowed")) RecEvent.evEnd).engineRunning =
      false :=
  (permission_error_clears_intent ⟨true, true, "", true⟩ "not-allowed").1
    (Or.inl rfl)

/-! ## Claim C9 -/

/-- Claim C9: every call to `startListening` resets the transcript string to
empty before recognition begins and sets the intent flag to true
(`useSpeech.ts` lines 130-131). -/
theorem startListening_resets_transcript (s : RecState) :
    (recStep s RecEvent.apiStart).transcript = "" ∧
    (recStep s RecEvent.apiStart).shouldListen = true := by
  simp [recStep]

/-! ## Claim C10 -/

/-- Claim C10 (amended): each recognition result event *replaces* the
adapter's transcript with the latest recognized text (`useSpeech.ts` lines
41-45 read the last result and call `setTranscript(text)`); the previous
transcript content is not preserved, so the transcript is not accumulating
between `startListening` calls. -/
theorem result_event_replaces_transcript (s : RecState) (t : String) :
    (recStep s (RecEvent.evResult t)).transcript = t := by
  simp [recStep]

/-- Claim C10 counterexample: after a result `"hello"`, a restart of the
recognizer and a new result `"world"`, the transcript is `"world"`: the
previous content `"hello"` is not preserved as a prefix, refuting the
accumulating-transcript claim. -/
theorem transcript_not_accumulating :
    (recRun [RecEvent.apiStart, RecEvent.evStarted,
        RecEvent.evResult "hello"]).transcript = "hello" ∧
    (recRun [RecEvent.apiStart, RecEvent.evStarted,
        RecEvent.evResult "hello", RecEvent.evEnd, RecEvent.evStarted,
        RecEvent.evResult "world"]).transcript = "world" ∧
    "hello".data.isPrefixOf "world".data = false := by
  decide

end MagicBuddy
